import Mathlib

/-!
Verification of the public read API worker (src/public-api/src/lib.rs).

The Rust source is shallowly embedded below.  Conventions used throughout:

* JSON values (`serde_json::Value`) are modelled by the inductive `Json`;
  numbers are restricted to integers, which is all the source ever reads
  (`as_i64`).  A stored row payload string is modelled by the *outcome* of
  `serde_json::from_str` on it, i.e. an `Option Json` (`none` = the string is
  not valid JSON).
* `serde_json::Map` (a `BTreeMap`) is modelled by an association list with an
  insert-or-replace operation (`insertField`).  The BTreeMap orders keys only
  for serialization; all observable behaviour in the source goes through
  keyed lookup and insert, which the model reproduces exactly.
* Rust machine integers are modelled by `Nat` with explicit `% 2^32` /
  `% 2^64` where wrapping (release-mode) arithmetic matters.
* The D1 row store is modelled by in-memory lists (`Database`); each SQL
  statement of the source is translated into the corresponding pure list
  computation next to it.  `ORDER BY` clauses only permute rows and are
  dropped where no verified property depends on the order.
* The KV cache store is modelled by association lists from key strings to
  the deserialized entry values.
* Handlers that the claims probe for their effects return, besides the
  response, a trace of the D1 queries issued and of the KV operations
  performed.
-/

-- ===========================================================================
-- JSON values
-- ===========================================================================

/-- Model of `serde_json::Value` with integer-only numbers. -/
inductive Json where
  | null : Json
  | bool (b : Bool) : Json
  | num (n : Int) : Json
  | str (s : String) : Json
  | arr (elems : List Json) : Json
  | obj (fields : List (String × Json)) : Json

/-- Model of `serde_json::Value::as_i64`. -/
def Json.asInt : Json → Option Int
  | .num n => some n
  | _ => none

/-- Model of `serde_json::Value::as_bool`. -/
def Json.asBool : Json → Option Bool
  | .bool b => some b
  | _ => none

def Json.isNull : Json → Bool
  | .null => true
  | _ => false

def Json.isObj : Json → Bool
  | .obj _ => true
  | _ => false

/-- Keyed lookup in a JSON object (`Value::get` / `Map::get`). -/
def lookupField (m : List (String × Json)) (k : String) : Option Json :=
  (m.find? (fun p => p.1 == k)).map (fun p => p.2)

/-- The `Value::get` on a JSON value: a field of an object, `none` otherwise. -/
def Json.getField (j : Json) (k : String) : Option Json :=
  match j with
  | .obj fields => lookupField fields k
  | _ => none

/-- Model of `serde_json::Map::insert`: replace the value of an existing key
in place, otherwise append the new binding. -/
def insertField : List (String × Json) → String → Json → List (String × Json)
  | [], k, v => [(k, v)]
  | p :: rest, k, v => if p.1 == k then (k, v) :: rest else p :: insertField rest k v

-- Structural equality of JSON values (models `PartialEq` on
-- `serde_json::Value`, with field order significant as in our list model).
mutual

def Json.beq : Json → Json → Bool
  | .null, .null => true
  | .bool a, .bool b => a == b
  | .num a, .num b => a == b
  | .str a, .str b => a == b
  | .arr a, .arr b => Json.beqArr a b
  | .obj a, .obj b => Json.beqObj a b
  | _, _ => false

def Json.beqArr : List Json → List Json → Bool
  | [], [] => true
  | x :: xs, y :: ys => Json.beq x y && Json.beqArr xs ys
  | _, _ => false

def Json.beqObj : List (String × Json) → List (String × Json) → Bool
  | [], [] => true
  | (k1, v1) :: xs, (k2, v2) :: ys => k1 == k2 && Json.beq v1 v2 && Json.beqObj xs ys
  | _, _ => false

end

-- ===========================================================================
-- String helpers (structural models of the Rust std string operations)
-- ===========================================================================

/-- Character-list prefix test, models `str::starts_with`. -/
def strStartsWith (s p : String) : Bool :=
  List.isPrefixOf p.data s.data

/-- Character-list suffix test, models `str::ends_with`. -/
def strEndsWith (s p : String) : Bool :=
  List.isSuffixOf p.data s.data

/-- Drop the first `n` characters, models `str` slicing from the front. -/
def strDrop (s : String) (n : Nat) : String :=
  String.mk (s.data.drop n)

/-- Drop the last `n` characters, models `str` slicing from the back. -/
def strDropRight (s : String) (n : Nat) : String :=
  String.mk (s.data.take (s.data.length - n))

def strIsEmpty (s : String) : Bool :=
  s.data.isEmpty

/-- Split on a separator character; models `str::split(c)` (which yields one
empty piece for the empty string). -/
def splitCharList (sep : Char) : List Char → List (List Char)
  | [] => [[]]
  | c :: rest =>
    match splitCharList sep rest with
    | [] => if c == sep then [[], []] else [[c]]
    | g :: gs => if c == sep then [] :: g :: gs else (c :: g) :: gs

def strSplitChar (sep : Char) (s : String) : List String :=
  (splitCharList sep s.data).map String.mk

/-- Model of `str::trim` (whitespace removal at both ends). -/
def strTrim (s : String) : String :=
  String.mk (((s.data.dropWhile Char.isWhitespace).reverse.dropWhile Char.isWhitespace).reverse)

/-- ASCII lower-casing; models `str::to_lowercase` on the ASCII inputs the
API compares (column names, filter values). -/
def charLower (c : Char) : Char :=
  if c.toNat ≥ 65 ∧ c.toNat ≤ 90 then Char.ofNat (c.toNat + 32) else c

def strLower (s : String) : String :=
  String.mk (s.data.map charLower)

/-- Byte-wise (equivalently code-point-wise) lexicographic `≤` on character
lists: the order `Vec<String>::sort` uses. -/
def charListLe : List Char → List Char → Bool
  | [], _ => true
  | _ :: _, [] => false
  | a :: as, b :: bs =>
    if a.toNat < b.toNat then true
    else if b.toNat < a.toNat then false
    else charListLe as bs

def strLeB (a b : String) : Bool :=
  charListLe a.data b.data

/-- The sort order on strings as a decidable relation. -/
def strLe (a b : String) : Prop := strLeB a b = true

instance : DecidableRel strLe := fun a b => by
  unfold strLe
  infer_instance

/-- Model of `u32::from_str` (`"...".parse::<u32>()`): optional leading `+`,
then decimal digits, value below `2^32`. -/
def parseU32 (s : String) : Option Nat :=
  let t := if strStartsWith s "+" then strDrop s 1 else s
  if strIsEmpty t then none
  else if t.data.all Char.isDigit then
    let n := t.data.foldl (fun acc c => acc * 10 + (c.toNat - 48)) 0
    if n < 4294967296 then some n else none
  else none

/-- UTF-8 encoding of a code point, as byte values. -/
def utf8EncodeNat (n : Nat) : List Nat :=
  if n < 128 then [n]
  else if n < 2048 then [192 + n / 64, 128 + n % 64]
  else if n < 65536 then [224 + n / 4096, 128 + (n / 64) % 64, 128 + n % 64]
  else [240 + n / 262144, 128 + (n / 4096) % 64, 128 + (n / 64) % 64, 128 + n % 64]

/-- The UTF-8 bytes of a string (`str::bytes`). -/
def utf8Bytes (s : String) : List Nat :=
  s.data.foldl (fun acc c => acc ++ utf8EncodeNat c.toNat) []

def joinSep (sep : String) : List String → String
  | [] => ""
  | [x] => x
  | x :: y :: rest => x ++ sep ++ joinSep sep (y :: rest)

-- ===========================================================================
-- Hashing and cache keys
-- ===========================================================================

def CACHE_KEY_PUBLIC_TABLES : String := "public:tables:all"

def CACHE_TTL_QUERY_RESULTS : Nat := 60

def CACHE_TTL_PUBLIC_TABLES : Nat := 300

/-- DJB2 hash over the UTF-8 bytes, with wrapping u32 arithmetic. -/
def djb2_hash (s : String) : Nat :=
  (utf8Bytes s).foldl (fun h c => (h * 33 + c) % 4294967296) 5381

/-- Lowercase hexadecimal rendering of the DJB2 hash (`format!("{:x}", _)`). -/
def short_hash (s : String) : String :=
  String.mk (Nat.toDigits 16 (djb2_hash s))

/-- The where-clause component of the query cache key: the literal sentinel
for an empty predicate set, otherwise the hash of the sorted rendered
`column=value` pairs.  This computation appears verbatim in both
`cache_get_query_results` and `cache_set_query_results`. -/
def where_hash_component (where_conditions : List (String × String)) : String :=
  if where_conditions.isEmpty then "none"
  else
    short_hash (joinSep "&"
      (List.insertionSort strLe (where_conditions.map (fun p => p.1 ++ "=" ++ p.2))))

/-- The full query-results cache key
`query:{tableHash}:{whereHash}:{limit}:{offset}`. -/
def query_cache_key (table_ids : List String) (where_conditions : List (String × String))
    (limit offset : Nat) : String :=
  "query:" ++ short_hash (joinSep "," table_ids) ++ ":" ++
    where_hash_component where_conditions ++ ":" ++ Nat.repr limit ++ ":" ++ Nat.repr offset

-- ===========================================================================
-- Data model
-- ===========================================================================

/-- A row of the `userTables` D1 table (the columns the API reads). -/
structure UserTable where
  id : String
  name : String
  description : Option String
  tableType : String
  visibility : String

/-- A row of the `tableData` D1 table.  `data` models the outcome of parsing
the stored payload string with `serde_json::from_str` (`none` = the stored
string is not valid JSON). -/
structure TableRow where
  id : String
  tableId : String
  data : Option Json
  createdAt : Option String
  updatedAt : Option String

/-- A row of the `tableColumns` D1 table (the columns the API reads). -/
structure TableColumnRow where
  tableId : String
  name : String

/-- The D1 database contents visible to this worker. -/
structure Database where
  userTables : List UserTable
  tableData : List TableRow
  tableColumns : List TableColumnRow

/-- The `TokenInfo` as selected from the `tokens` table. -/
structure TokenInfo where
  id : String
  tableAccess : Option String

structure PublicTable where
  id : String
  name : String
  description : Option String
  tableType : String
  rowCount : Nat

structure PaginationInfo where
  total : Int
  page : Nat
  limit : Nat
  hasMore : Bool

structure TablesResponse where
  tables : List PublicTable
  count : Nat

structure SearchResponse where
  tables : List PublicTable
  count : Nat
  searchedColumns : List String

structure ItemsResponse where
  items : List Json
  tableId : String
  tableName : String
  tableType : String
  count : Nat

structure ValuesResponse where
  column : String
  values : List Json
  count : Nat
  filters : Option (List (String × String))
  tablesSampled : List String

structure RecordsResponse where
  records : List Json
  count : Nat
  total : Int
  pagination : PaginationInfo
  filters : Option (List (String × String))

structure AvailabilityResponse where
  available : Bool
  availableQty : Int
  requestedQty : Nat

/-- Cached query results (`QueryResultsCache`). -/
structure QueryResultsCache where
  records : List Json
  total : Int
  cachedAt : Nat

/-- Cached public tables list (`PublicTablesCache`); `CachedPublicTable`
mirrors `PublicTable` field for field, so `PublicTable` is reused. -/
structure PublicTablesCache where
  tables : List PublicTable
  cachedAt : Nat

/-- A handler's HTTP outcome: `json_response(data, 200)` or
`error_response(message, status)`. -/
inductive Resp (α : Type) where
  | success (a : α) : Resp α
  | failure (status : Nat) (msg : String) : Resp α

def Resp.isSuccess : Resp α → Bool
  | .success _ => true
  | _ => false

-- ===========================================================================
-- Query parameter handling
-- ===========================================================================

/-- A parsed query-parameter map (`parse_query_params` output); keys are
unique as in the source's `HashMap`. -/
def lookupParam (query : List (String × String)) (k : String) : Option String :=
  (query.find? (fun p => p.1 == k)).map (fun p => p.2)

/-- Insert into a string-keyed map with replace semantics
(`HashMap::insert`). -/
def insertParam : List (String × String) → String → String → List (String × String)
  | [], k, v => [(k, v)]
  | p :: rest, k, v => if p.1 == k then (k, v) :: rest else p :: insertParam rest k v

/-- The `extract_where_conditions`: collect `where[col]=value` parameters. -/
def extract_where_conditions (query : List (String × String)) : List (String × String) :=
  query.foldl
    (fun conds p =>
      if strStartsWith p.1 "where[" ∧ strEndsWith (strDrop p.1 6) "]" then
        insertParam conds (strDropRight (strDrop p.1 6) 1) p.2
      else conds)
    []

-- ===========================================================================
-- TTL-checked cache reads and cache writes
-- ===========================================================================

def U64_MOD : Nat := 18446744073709551616

/-- Wrapping `u64` subtraction (release-mode Rust `now - cached_at`). -/
def u64_sub (a b : Nat) : Nat :=
  (a % U64_MOD + U64_MOD - b % U64_MOD) % U64_MOD

/-- The query-results KV namespace: deserialized entries by key. -/
def QueryKv := List (String × QueryResultsCache)

/-- The `cache_get_query_results`: look the derived key up and enforce the TTL at
read time (an entry of age `≥ 60` seconds is a miss). -/
def cache_get_query_results (kv : QueryKv) (now : Nat) (table_ids : List String)
    (where_conditions : List (String × String)) (limit offset : Nat) :
    Option QueryResultsCache :=
  let cache_key := query_cache_key table_ids where_conditions limit offset
  match (kv.find? (fun p => p.1 == cache_key)).map (fun p => p.2) with
  | some cached => if u64_sub now cached.cachedAt < CACHE_TTL_QUERY_RESULTS then some cached else none
  | none => none

/-- The `cache_get_public_tables`: same TTL-at-read pattern with the 300 second
TTL; the store holds at most the one `public:tables:all` entry. -/
def cache_get_public_tables (kv : Option PublicTablesCache) (now : Nat) :
    Option (List PublicTable) :=
  match kv with
  | some cached =>
    if u64_sub now cached.cachedAt < CACHE_TTL_PUBLIC_TABLES then some cached.tables else none
  | none => none

-- ===========================================================================
-- Auth: visibility policy derivation
-- ===========================================================================

/-- A quote-delimited string element of a JSON array, without escapes;
together with `parse_string_array` models `serde_json::from_str::<Vec<String>>`
on escape-free inputs (the only shape `tableAccess` ever holds). -/
def parseQuotedElem (s : String) : Option String :=
  let t := strTrim s
  if strStartsWith t "\"" ∧ strEndsWith (strDrop t 1) "\"" then
    some (strDropRight (strDrop t 1) 1)
  else none

def parse_string_array (s : String) : Option (List String) :=
  let t := strTrim s
  if strStartsWith t "[" ∧ strEndsWith (strDrop t 1) "]" then
    let inner := strDropRight (strDrop t 1) 1
    if strIsEmpty (strTrim inner) then some []
    else (strSplitChar ',' inner).mapM parseQuotedElem
  else none

/-- The `get_allowed_table_ids`: `none` means unrestricted; `some ids` restricts
to the listed tables (unparsable or absent `tableAccess` gives `some []`). -/
def get_allowed_table_ids (token : TokenInfo) : Option (List String) :=
  if token.id == "admin-token" ∨ token.id == "frontend-token" then none
  else
    match token.tableAccess with
    | some access_str =>
      match parse_string_array access_str with
      | some ids => some ids
      | none => some []
    | none => some []

/-- The access check shared verbatim by `get_table_items`, `get_table_item`
and `get_item_availability`. -/
def has_access (table : UserTable) (allowed : Option (List String)) : Bool :=
  match allowed with
  | none => table.visibility == "public" ∨ table.visibility == "shared"
  | some ids => ids.contains table.id

/-- The `SELECT ... FROM userTables WHERE id = ?` with `first`. -/
def findTable (db : Database) (table_id : String) : Option UserTable :=
  db.userTables.find? (fun t => t.id == table_id)

/-- The `SELECT ... FROM tableData WHERE id = ? AND tableId = ?` with `first`. -/
def findRow (db : Database) (table_id item_id : String) : Option TableRow :=
  db.tableData.find? (fun r => r.id == item_id ∧ r.tableId == table_id)

/-- The correlated `rowCount` subquery
`SELECT COUNT(*) FROM tableData WHERE tableId = ut.id`. -/
def countRows (db : Database) (table_id : String) : Nat :=
  (db.tableData.filter (fun r => r.tableId == table_id)).length

def toPublicTable (db : Database) (t : UserTable) : PublicTable :=
  { id := t.id, name := t.name, description := t.description,
    tableType := t.tableType, rowCount := countRows db t.id }

def isSaleOrRent (tableType : String) : Bool :=
  tableType == "sale" ∨ tableType == "rent"

def isPublicOrShared (visibility : String) : Bool :=
  visibility == "public" ∨ visibility == "shared"

-- ===========================================================================
-- RecordProjector: flatten_record
-- ===========================================================================

/-- The `flatten_record`: reserved fields first, then the payload overlay
(`unwrap_or(json!({}))` on a parse failure; a non-object payload contributes
nothing), then the row timestamps. -/
def flatten_record (row_id table_id table_name table_type : String)
    (data : Option Json) (created_at updated_at : Option String) : Json :=
  let parsed := data.getD (Json.obj [])
  let base :=
    insertField
      (insertField
        (insertField
          (insertField [] "id" (Json.str row_id))
          "tableId" (Json.str table_id))
        "tableName" (Json.str table_name))
      "tableType" (Json.str table_type)
  let withData :=
    match parsed with
    | Json.obj fields => fields.foldl (fun m p => insertField m p.1 p.2) base
    | _ => base
  let withCa :=
    match created_at with
    | some ca => insertField withData "createdAt" (Json.str ca)
    | none => withData
  let withUa :=
    match updated_at with
    | some ua => insertField withCa "updatedAt" (Json.str ua)
    | none => withCa
  Json.obj withUa

-- ===========================================================================
-- QueryPlanner: table resolution and row filtering
-- ===========================================================================

/-- The accessible-table resolution of `get_records` (also used, with other
column selections, by `get_tables`, `search_tables` and `get_values`):
restricted tokens select by granted id and `tableType IN ('sale','rent')`
without a visibility check; an empty grant issues no query; unrestricted
tokens select by `visibility IN ('public','shared')` and the same types. -/
def resolveTables (db : Database) (allowed : Option (List String)) : List UserTable :=
  match allowed with
  | some ids =>
    if ids.isEmpty then []
    else db.userTables.filter (fun t => ids.contains t.id ∧ isSaleOrRent t.tableType)
  | none =>
    db.userTables.filter (fun t => isPublicOrShared t.visibility ∧ isSaleOrRent t.tableType)

/-- Number of D1 statements issued by the table resolution. -/
def resolveQueries (allowed : Option (List String)) : Nat :=
  match allowed with
  | some ids => if ids.isEmpty then 0 else 1
  | none => 1

/-- SQLite text rendering of a JSON scalar, for the case-insensitive
`LOWER(json_extract(data, $.col)) = LOWER(?)` comparison. -/
def jsonToSqlText : Json → String
  | .str s => s
  | .num n => Int.repr n
  | .bool b => if b then "1" else "0"
  | _ => ""

/-- One `where[col]=value` predicate against a row payload: `NULL` (absent
field or null) never matches; otherwise case-insensitive text equality. -/
def matchesWhere (payload : Json) (cond : String × String) : Bool :=
  match payload.getField cond.1 with
  | none => false
  | some j =>
    if j.isNull then false
    else strLower (jsonToSqlText j) == strLower cond.2

def rowMatches (where_conditions : List (String × String)) (row : TableRow) : Bool :=
  where_conditions.all (fun c => matchesWhere (row.data.getD (Json.obj [])) c)

/-- The `SELECT ... FROM tableData WHERE tableId IN (...) AND <predicates>`:
the rows the count query counts and the page query paginates. -/
def matchedRows (db : Database) (table_ids : List String)
    (where_conditions : List (String × String)) : List TableRow :=
  db.tableData.filter (fun r => table_ids.contains r.tableId ∧ rowMatches where_conditions r)

/-- The `(name, tableType)` fallback lookup `table_map.get(&row.table_id)`
with defaults `("Unknown", "unknown")`, then `flatten_record`. -/
def flattenRow (tables : List UserTable) (row : TableRow) : Json :=
  let info := tables.find? (fun t => t.id == row.tableId)
  let name := match info with | some t => t.name | none => "Unknown"
  let ttype := match info with | some t => t.tableType | none => "unknown"
  flatten_record row.id row.tableId name ttype row.data row.createdAt row.updatedAt

-- ===========================================================================
-- Route handlers
-- ===========================================================================

def optStrJson : Option String → Json
  | some s => Json.str s
  | none => Json.null

def tableNameLe (a b : PublicTable) : Prop := strLe a.name b.name

instance : DecidableRel tableNameLe := fun a b => by
  unfold tableNameLe strLe
  infer_instance

/-- The `ORDER BY ut.name ASC` of the `get_tables` catalog queries. -/
def sortByName (ts : List PublicTable) : List PublicTable :=
  List.insertionSort tableNameLe ts

/-- Effect trace of `get_tables`: the response, the number of D1 statements
issued, and the public-tables cache write (if any). -/
structure TablesOutcome where
  resp : Resp TablesResponse
  dbQueries : Nat
  cacheSet : Option PublicTablesCache

/-- The `GET /api/public/tables` (`get_tables`). -/
def get_tables (db : Database) (kv : Option PublicTablesCache) (now : Nat)
    (token : TokenInfo) : TablesOutcome :=
  let allowed := get_allowed_table_ids token
  match allowed with
  | some ids =>
    if ids.isEmpty then
      { resp := .success { tables := [], count := 0 }, dbQueries := 0, cacheSet := none }
    else
      let tables := sortByName
        ((db.userTables.filter (fun t => ids.contains t.id ∧ isSaleOrRent t.tableType)).map
          (toPublicTable db))
      { resp := .success { count := tables.length, tables := tables },
        dbQueries := 1, cacheSet := none }
  | none =>
    match cache_get_public_tables kv now with
    | some cached =>
      { resp := .success { count := cached.length, tables := cached },
        dbQueries := 0, cacheSet := none }
    | none =>
      let result := sortByName
        ((db.userTables.filter (fun t => isPublicOrShared t.visibility ∧ isSaleOrRent t.tableType)).map
          (toPublicTable db))
      { resp := .success { count := result.length, tables := result },
        dbQueries := 1, cacheSet := some { tables := result, cachedAt := now } }

/-- The `columns` query-parameter parse of `search_tables`:
split on commas, trim, drop empty pieces. -/
def parsedSearchColumns (query : List (String × String)) : List String :=
  let columns_param := (lookupParam query "columns").getD ""
  ((strSplitChar ',' columns_param).map strTrim).filter (fun s => !(strIsEmpty s))

structure SearchOutcome where
  resp : Resp SearchResponse
  dbQueries : Nat

/-- The `GET /api/public/tables/search` (`search_tables`): resolve the accessible
tables, then keep those whose `tableColumns` rows contain every searched
column (case-insensitively); one column query is issued per table. -/
def search_tables (db : Database) (token : TokenInfo)
    (query : List (String × String)) : SearchOutcome :=
  let search_columns := parsedSearchColumns query
  if search_columns.isEmpty then
    { resp := .failure 400 "columns parameter is required", dbQueries := 0 }
  else
    let allowed := get_allowed_table_ids token
    let all_tables : List PublicTable :=
      match allowed with
      | some ids =>
        if ids.isEmpty then []
        else (db.userTables.filter (fun t => ids.contains t.id ∧ isSaleOrRent t.tableType)).map
          (toPublicTable db)
      | none =>
        (db.userTables.filter (fun t => isPublicOrShared t.visibility ∧ isSaleOrRent t.tableType)).map
          (toPublicTable db)
    let matching_tables := all_tables.filter (fun table =>
      let col_names := (db.tableColumns.filter (fun c => c.tableId == table.id)).map
        (fun c => strLower c.name)
      search_columns.all (fun sc => col_names.contains (strLower sc)))
    { resp := .success
        { count := matching_tables.length, tables := matching_tables,
          searchedColumns := search_columns },
      dbQueries := resolveQueries allowed + all_tables.length }

/-- The `GET /api/public/tables/:tableId/items` (`get_table_items`).  The
`ORDER BY createdAt DESC` of the item query only permutes `rows` and is
dropped. -/
def get_table_items (db : Database) (token : TokenInfo) (table_id : String)
    (query : List (String × String)) : Resp ItemsResponse :=
  let flat_mode := ((lookupParam query "flat").map (fun s => s == "true")).getD false
  match findTable db table_id with
  | none => Resp.failure 404 "Table not found"
  | some table =>
    if !(has_access table (get_allowed_table_ids token)) then
      Resp.failure 403 "Table is not accessible with this token"
    else if table.tableType != "sale" ∧ table.tableType != "rent" then
      Resp.failure 403 "This endpoint only supports sale and rent tables"
    else
      let rows := db.tableData.filter (fun r => r.tableId == table_id)
      let items :=
        if flat_mode then
          rows.map (fun row =>
            flatten_record row.id row.tableId table.name table.tableType
              row.data row.createdAt row.updatedAt)
        else
          rows.map (fun row => Json.obj
            [("id", Json.str row.id), ("data", row.data.getD (Json.obj [])),
             ("createdAt", optStrJson row.createdAt), ("updatedAt", optStrJson row.updatedAt)])
      Resp.success
        { count := items.length, items := items, tableId := table.id,
          tableName := table.name, tableType := table.tableType }

/-- The `GET /api/public/tables/:tableId/items/:itemId` (`get_table_item`):
access is checked against visibility/grant only; there is no table-type
check on this endpoint. -/
def get_table_item (db : Database) (token : TokenInfo)
    (table_id item_id : String) : Resp Json :=
  match findTable db table_id with
  | none => Resp.failure 404 "Table not found"
  | some table =>
    if !(has_access table (get_allowed_table_ids token)) then
      Resp.failure 403 "Table is not accessible with this token"
    else
      match findRow db table_id item_id with
      | some row =>
        Resp.success (flatten_record row.id row.tableId table.name table.tableType
          row.data row.createdAt row.updatedAt)
      | none => Resp.failure 404 "Item not found"

/-- The `GET /api/public/tables/:tableId/items/:itemId/availability`
(`get_item_availability`): `sale` tables read the payload's numeric `qty`
(default 0); any other table type reads the `used` flag; the comparison is
`available_qty >= quantity as i64`.  No table-type check is performed. -/
def get_item_availability (db : Database) (token : TokenInfo)
    (table_id item_id : String) (query : List (String × String)) :
    Resp AvailabilityResponse :=
  let quantity := ((lookupParam query "quantity").bind parseU32).getD 1
  match findTable db table_id with
  | none => Resp.failure 404 "Table not found"
  | some table =>
    if !(has_access table (get_allowed_table_ids token)) then
      Resp.failure 403 "Table is not accessible with this token"
    else
      match findRow db table_id item_id with
      | none => Resp.failure 404 "Item not found"
      | some item =>
        let data := item.data.getD (Json.obj [])
        let available_qty : Int :=
          if table.tableType == "sale" then ((data.getField "qty").bind Json.asInt).getD 0
          else if ((data.getField "used").bind Json.asBool).getD false then 0 else 1
        Resp.success
          { available := decide (available_qty ≥ (quantity : Int)),
            availableQty := available_qty, requestedQty := quantity }

-- ===========================================================================
-- get_records
-- ===========================================================================

/-- The `limit` derivation of `get_records`:
`query.get("limit").and_then(parse).unwrap_or(100).min(1000)`. -/
def effLimit (query : List (String × String)) : Nat :=
  min (((lookupParam query "limit").bind parseU32).getD 100) 1000

/-- The `offset` derivation of `get_records`. -/
def effOffset (query : List (String × String)) : Nat :=
  ((lookupParam query "offset").bind parseU32).getD 0

def condsFilters (conds : List (String × String)) : Option (List (String × String)) :=
  if conds.isEmpty then none else some conds

/-- The `i64 as u32` truncation. -/
def u32OfInt (t : Int) : Nat := (t % 4294967296).toNat

/-- The pagination block built by the cached and the live paths of
`get_records`: `page = offset / limit + 1` (u32 division and wrapping add)
and `has_more = (offset + limit) < total as u32` (wrapping u32 add). -/
def mkPaginationLive (limit offset : Nat) (total : Int) : PaginationInfo :=
  { total := total, page := (offset / limit + 1) % 4294967296, limit := limit,
    hasMore := decide (((offset + limit) % 4294967296) < u32OfInt total) }

/-- Column projection of `get_records`: keep the four reserved fields and
every field named in the comma-separated allow list. -/
def projectRecord (cols : String) (rec : Json) : Json :=
  let include_cols := (strSplitChar ',' cols).map strTrim
  match rec with
  | Json.obj fields => Json.obj (fields.filter (fun p =>
      p.1 == "id" ∨ p.1 == "tableId" ∨ p.1 == "tableName" ∨ p.1 == "tableType" ∨
        include_cols.contains p.1))
  | j => j

/-- Effect trace of `get_records`.  `resp = none` models the `u32` division
panic `(offset / limit) + 1` reached whenever the effective limit is `0`
and a pagination block is built (every path except the empty-table early
return); the trace fields still record what happened before the panic. -/
structure RecordsOutcome where
  resp : Option (Resp RecordsResponse)
  dbQueries : Nat
  cacheGets : List String
  cacheSet : Option (String × QueryResultsCache)

/-- The `GET /api/public/records` (`get_records`). -/
def get_records (db : Database) (kv : QueryKv) (now : Nat) (token : TokenInfo)
    (query : List (String × String)) : RecordsOutcome :=
  let where_conditions := extract_where_conditions query
  let limit := effLimit query
  let offset := effOffset query
  let columns_param := lookupParam query "columns"
  let allowed := get_allowed_table_ids token
  let tables := resolveTables db allowed
  if tables.isEmpty then
    { resp := some (.success
        { records := [], count := 0, total := 0,
          pagination := { total := 0, page := 1, limit := limit, hasMore := false },
          filters := condsFilters where_conditions }),
      dbQueries := resolveQueries allowed, cacheGets := [], cacheSet := none }
  else
    let table_ids := tables.map (fun t => t.id)
    let can_use_cache := allowed.isNone && columns_param.isNone
    let cache_key := query_cache_key table_ids where_conditions limit offset
    match (if can_use_cache then cache_get_query_results kv now table_ids where_conditions limit offset
           else none) with
    | some cached =>
      { resp := if limit == 0 then none else some (.success
          { count := cached.records.length, records := cached.records, total := cached.total,
            pagination := mkPaginationLive limit offset cached.total,
            filters := condsFilters where_conditions }),
        dbQueries := resolveQueries allowed, cacheGets := [cache_key], cacheSet := none }
    | none =>
      let total : Int := (matchedRows db table_ids where_conditions).length
      let pageRows := ((matchedRows db table_ids where_conditions).drop offset).take limit
      let records := pageRows.map (fun row => flattenRow tables row)
      let cset := if can_use_cache then
          some (cache_key, { records := records, total := total, cachedAt := now })
        else none
      let records2 :=
        match columns_param with
        | some cols => records.map (projectRecord cols)
        | none => records
      { resp := if limit == 0 then none else some (.success
          { count := records2.length, records := records2, total := total,
            pagination := mkPaginationLive limit offset total,
            filters := condsFilters where_conditions }),
        dbQueries := resolveQueries allowed + 2,
        cacheGets := if can_use_cache then [cache_key] else [],
        cacheSet := cset }

-- ===========================================================================
-- get_values
-- ===========================================================================

def dedupByGo (eq : Json → Json → Bool) (seen : List Json) : List Json → List Json
  | [] => []
  | x :: xs =>
    if seen.any (fun y => eq y x) then dedupByGo eq seen xs
    else x :: dedupByGo eq (x :: seen) xs

/-- The `SELECT DISTINCT`: keep the first occurrence of each value. -/
def dedupBy (eq : Json → Json → Bool) (l : List Json) : List Json :=
  dedupByGo eq [] l

structure ValuesOutcome where
  resp : Resp ValuesResponse
  dbQueries : Nat

/-- The `GET /api/public/values/:columnName` (`get_values`): resolve accessible
tables, keep those having the column (one `tableColumns` query per table),
then select the distinct non-null extracted values under the `where`
predicates. -/
def get_values (db : Database) (token : TokenInfo) (column_name : String)
    (query : List (String × String)) : ValuesOutcome :=
  let where_conditions := extract_where_conditions query
  let allowed := get_allowed_table_ids token
  let tables := resolveTables db allowed
  if tables.isEmpty then
    { resp := .success
        { column := column_name, values := [], count := 0,
          filters := condsFilters where_conditions, tablesSampled := [] },
      dbQueries := resolveQueries allowed }
  else
    let eligible_tables := tables.filter (fun t =>
      db.tableColumns.any (fun c => c.tableId == t.id ∧ strLower c.name == strLower column_name))
    let q1 := resolveQueries allowed + tables.length
    if eligible_tables.isEmpty then
      { resp := .success
          { column := column_name, values := [], count := 0,
            filters := condsFilters where_conditions, tablesSampled := [] },
        dbQueries := q1 }
    else
      let table_ids := eligible_tables.map (fun t => t.id)
      let tables_sampled := eligible_tables.map (fun t => t.name)
      let raw := (db.tableData.filter (fun r =>
          table_ids.contains r.tableId ∧ rowMatches where_conditions r)).filterMap (fun r =>
        match (r.data.getD (Json.obj [])).getField column_name with
        | none => none
        | some j => if j.isNull then none else some j)
      let values := dedupBy Json.beq raw
      { resp := .success
          { column := column_name, count := values.length, values := values,
            filters := condsFilters where_conditions, tablesSampled := tables_sampled },
        dbQueries := q1 + 1 }

-- ===========================================================================
-- Lemmas: keyed insert and lookup
-- ===========================================================================

theorem lookupField_cons (q : String × Json) (l : List (String × Json)) (k : String) :
    lookupField (q :: l) k = if q.1 == k then some q.2 else lookupField l k := by
  by_cases h : q.1 == k
  · simp [lookupField, List.find?_cons_of_pos, h]
  · simp [lookupField, List.find?_cons_of_neg, h]

theorem lookupField_insertField_self (m : List (String × Json)) (k : String) (v : Json) :
    lookupField (insertField m k v) k = some v := by
  induction m with
  | nil => simp [insertField, lookupField_cons]
  | cons p rest ih =>
    by_cases hp : p.1 = k
    · simp [insertField, hp, lookupField_cons]
    · simp [insertField, hp, lookupField_cons, ih]

theorem lookupField_insertField_ne (m : List (String × Json)) (k k' : String) (v : Json)
    (h : k' ≠ k) : lookupField (insertField m k v) k' = lookupField m k' := by
  induction m with
  | nil => simp [insertField, lookupField_cons, lookupField, Ne.symm h]
  | cons p rest ih =>
    by_cases hp : p.1 = k
    · subst hp
      simp [insertField, lookupField_cons, Ne.symm h]
    · simp only [insertField, beq_iff_eq, hp, if_false]
      rw [lookupField_cons, lookupField_cons, ih]

/-- The payload overlay loop leaves keys it never touches alone. -/
theorem lookupField_overlay_of_not_mem (fields : List (String × Json))
    (m0 : List (String × Json)) (k : String) (h : ∀ p ∈ fields, p.1 ≠ k) :
    lookupField (fields.foldl (fun m p => insertField m p.1 p.2) m0) k = lookupField m0 k := by
  induction fields generalizing m0 with
  | nil => rfl
  | cons p rest ih =>
    simp only [List.foldl_cons]
    rw [ih _ (fun q hq => h q (List.mem_cons_of_mem p hq)),
      lookupField_insertField_ne _ _ _ _ (Ne.symm (h p (List.mem_cons_self p rest)))]

/-- The payload overlay loop stores the payload's value for each of its
(unduplicated) keys. -/
theorem lookupField_overlay_mem (fields : List (String × Json))
    (m0 : List (String × Json)) (k : String) (v : Json)
    (hnd : (fields.map (fun p => p.1)).Nodup) (hmem : (k, v) ∈ fields) :
    lookupField (fields.foldl (fun m p => insertField m p.1 p.2) m0) k = some v := by
  induction fields generalizing m0 with
  | nil => cases hmem
  | cons p rest ih =>
    simp only [List.map_cons, List.nodup_cons] at hnd
    rcases List.mem_cons.mp hmem with heq | hmemr
    · have hp : p = (k, v) := heq.symm
      subst hp
      simp only [List.foldl_cons]
      rw [lookupField_overlay_of_not_mem _ _ _ ?keyfresh, lookupField_insertField_self]
      case keyfresh =>
        intro q hq hqk
        apply hnd.1
        rw [← hqk]
        exact List.mem_map_of_mem (fun p => p.1) hq
    · simp only [List.foldl_cons]
      exact ih _ hnd.2 hmemr

-- ===========================================================================
-- Lemmas: the string sort order
-- ===========================================================================

theorem charListLe_total : ∀ x y : List Char, charListLe x y = true ∨ charListLe y x = true
  | [], _ => Or.inl rfl
  | _ :: _, [] => Or.inr rfl
  | a :: as, b :: bs => by
    simp only [charListLe]
    rcases Nat.lt_trichotomy a.toNat b.toNat with h | h | h
    · exact Or.inl (by rw [if_pos h])
    · rw [if_neg (show ¬ a.toNat < b.toNat from by omega),
        if_neg (show ¬ b.toNat < a.toNat from by omega),
        if_neg (show ¬ b.toNat < a.toNat from by omega),
        if_neg (show ¬ a.toNat < b.toNat from by omega)]
      exact charListLe_total as bs
    · exact Or.inr (by rw [if_pos h])

theorem charListLe_trans : ∀ x y z : List Char,
    charListLe x y = true → charListLe y z = true → charListLe x z = true
  | [], _, _, _, _ => rfl
  | _ :: _, [], _, h1, _ => absurd h1 (by simp [charListLe])
  | _ :: _, _ :: _, [], _, h2 => absurd h2 (by simp [charListLe])
  | a :: as, b :: bs, c :: cs, h1, h2 => by
    simp only [charListLe] at h1 h2 ⊢
    rcases Nat.lt_trichotomy a.toNat b.toNat with hab | hab | hab <;>
      rcases Nat.lt_trichotomy b.toNat c.toNat with hbc | hbc | hbc
    all_goals first
    | (rw [if_neg (show ¬ a.toNat < b.toNat from by omega),
          if_pos (show b.toNat < a.toNat from by omega)] at h1
       exact absurd h1 (by decide))
    | (rw [if_neg (show ¬ b.toNat < c.toNat from by omega),
          if_pos (show c.toNat < b.toNat from by omega)] at h2
       exact absurd h2 (by decide))
    | (rw [if_pos (show a.toNat < c.toNat from by omega)])
    | (rw [if_neg (show ¬ a.toNat < c.toNat from by omega),
          if_neg (show ¬ c.toNat < a.toNat from by omega)]
       rw [if_neg (show ¬ a.toNat < b.toNat from by omega),
          if_neg (show ¬ b.toNat < a.toNat from by omega)] at h1
       rw [if_neg (show ¬ b.toNat < c.toNat from by omega),
          if_neg (show ¬ c.toNat < b.toNat from by omega)] at h2
       exact charListLe_trans as bs cs h1 h2)

theorem charListLe_antisymm : ∀ x y : List Char,
    charListLe x y = true → charListLe y x = true → x = y
  | [], [], _, _ => rfl
  | [], _ :: _, _, h2 => absurd h2 (by simp [charListLe])
  | _ :: _, [], h1, _ => absurd h1 (by simp [charListLe])
  | a :: as, b :: bs, h1, h2 => by
    simp only [charListLe] at h1 h2
    rcases Nat.lt_trichotomy a.toNat b.toNat with hab | hab | hab
    · rw [if_neg (show ¬ b.toNat < a.toNat from by omega),
        if_pos (show a.toNat < b.toNat from by omega)] at h2
      exact absurd h2 (by decide)
    · rw [if_neg (show ¬ a.toNat < b.toNat from by omega),
        if_neg (show ¬ b.toNat < a.toNat from by omega)] at h1
      rw [if_neg (show ¬ b.toNat < a.toNat from by omega),
        if_neg (show ¬ a.toNat < b.toNat from by omega)] at h2
      have ha : a = b := Char.eq_of_val_eq (UInt32.toNat.inj hab)
      rw [ha, charListLe_antisymm as bs h1 h2]
    · rw [if_neg (show ¬ a.toNat < b.toNat from by omega),
        if_pos (show b.toNat < a.toNat from by omega)] at h1
      exact absurd h1 (by decide)

instance : IsTotal String strLe :=
  ⟨fun a b => charListLe_total a.data b.data⟩

instance : IsTrans String strLe :=
  ⟨fun a b c hab hbc => charListLe_trans a.data b.data c.data hab hbc⟩

instance : IsAntisymm String strLe :=
  ⟨fun a b hab hba => by
    cases a
    cases b
    exact congrArg String.mk (charListLe_antisymm _ _ hab hba)⟩

/-- Sorting with `strLe` is invariant under permutation of the input. -/
theorem insertionSort_strLe_perm_eq (l1 l2 : List String) (h : l1.Perm l2) :
    List.insertionSort strLe l1 = List.insertionSort strLe l2 :=
  List.eq_of_perm_of_sorted
    ((List.perm_insertionSort strLe l1).trans (h.trans (List.perm_insertionSort strLe l2).symm))
    (List.sorted_insertionSort strLe l1) (List.sorted_insertionSort strLe l2)

-- ===========================================================================
-- Lemmas: wrapping u64 subtraction
-- ===========================================================================

theorem u64_sub_eq_sub (a b : Nat) (hb : b ≤ a) (ha : a < U64_MOD) :
    u64_sub a b = a - b := by
  unfold u64_sub
  rw [Nat.mod_eq_of_lt ha, Nat.mod_eq_of_lt (Nat.lt_of_le_of_lt hb ha)]
  have h2 : a + U64_MOD - b = U64_MOD + (a - b) := by omega
  rw [h2, Nat.add_mod_left, Nat.mod_eq_of_lt (by omega)]

-- ===========================================================================
-- Claim C4: cache-key order-independence and empty-predicate sentinel
-- ===========================================================================

/-- Claim C4: over the same table-id list, limit and offset, two predicate
sets containing the same column=value pairs (as sets, i.e. up to
permutation) derive the identical cache key; and an empty predicate set puts
the literal sentinel "none" in place of the predicate hash. -/
theorem claim4_cache_key_order_independent (ids : List String) (l o : Nat)
    (c1 c2 : List (String × String)) (h : c1.Perm c2) :
    query_cache_key ids c1 l o = query_cache_key ids c2 l o ∧
    where_hash_component [] = "none" ∧
    query_cache_key ids [] l o =
      "query:" ++ short_hash (joinSep "," ids) ++ ":" ++ "none" ++ ":" ++
        Nat.repr l ++ ":" ++ Nat.repr o := by
  refine ⟨?_, rfl, rfl⟩
  rcases c1 with _ | ⟨p, rest⟩
  · have hc2 : c2 = [] := h.symm.eq_nil
    subst hc2
    rfl
  · have hne : c2 ≠ [] := by
      intro hc
      subst hc
      exact absurd h.eq_nil (by simp)
    have h1 : (p :: rest).isEmpty = false := rfl
    have h2 : c2.isEmpty = false := by
      cases c2 with
      | nil => exact absurd rfl hne
      | cons q qs => rfl
    have hs := insertionSort_strLe_perm_eq _ _ (h.map (fun q => q.1 ++ "=" ++ q.2))
    simp only [query_cache_key, where_hash_component, h1, h2, Bool.false_eq_true, if_false]
    rw [hs]

theorem claim4_witness :
    query_cache_key ["t1"] [("b", "2"), ("a", "1")] 100 0 =
      query_cache_key ["t1"] [("a", "1"), ("b", "2")] 100 0 :=
  (claim4_cache_key_order_independent ["t1"] 100 0 _ _ (by decide)).1

-- ===========================================================================
-- Claim C5: exclusive 60 second TTL on query-page cache reads
-- ===========================================================================

/-- Claim C5: a stored query-page entry read at time `now` is a hit exactly
when `now - cachedAt < 60`, and the boundary `now - cachedAt = 60` is a miss
(the TTL is exclusive). -/
theorem claim5_query_cache_ttl (kv : QueryKv) (now : Nat) (ids : List String)
    (conds : List (String × String)) (l o : Nat) (e : QueryResultsCache)
    (hfind : (kv.find? (fun p => p.1 == query_cache_key ids conds l o)).map (fun p => p.2) =
      some e)
    (hle : e.cachedAt ≤ now) (hnow : now < U64_MOD) :
    (cache_get_query_results kv now ids conds l o = some e ↔ now - e.cachedAt < 60) ∧
    (now - e.cachedAt = 60 → cache_get_query_results kv now ids conds l o = none) := by
  have hbody : cache_get_query_results kv now ids conds l o =
      (if u64_sub now e.cachedAt < CACHE_TTL_QUERY_RESULTS then some e else none) := by
    simp only [cache_get_query_results, hfind]
  rw [hbody, u64_sub_eq_sub now e.cachedAt hle hnow]
  constructor
  · constructor
    · intro hsome
      by_contra hge
      rw [if_neg (by simpa [CACHE_TTL_QUERY_RESULTS] using hge)] at hsome
      cases hsome
    · intro hlt
      rw [if_pos (by simpa [CACHE_TTL_QUERY_RESULTS] using hlt)]
  · intro heq
    rw [if_neg (by simp [CACHE_TTL_QUERY_RESULTS, heq])]

def claim5_entry : QueryResultsCache := { records := [], total := 0, cachedAt := 0 }

theorem claim5_witness :
    cache_get_query_results [(query_cache_key ["t1"] [] 100 0, claim5_entry)] 59
      ["t1"] [] 100 0 = some claim5_entry ∧
    cache_get_query_results [(query_cache_key ["t1"] [] 100 0, claim5_entry)] 60
      ["t1"] [] 100 0 = none := by
  have h1 := claim5_query_cache_ttl [(query_cache_key ["t1"] [] 100 0, claim5_entry)] 59
    ["t1"] [] 100 0 claim5_entry (by rfl) (by decide) (by decide)
  have h2 := claim5_query_cache_ttl [(query_cache_key ["t1"] [] 100 0, claim5_entry)] 60
    ["t1"] [] 100 0 claim5_entry (by rfl) (by decide) (by decide)
  exact ⟨h1.1.mpr (by decide), h2.2 (by decide)⟩

-- ===========================================================================
-- Claim C7: payload values override the reserved fields
-- ===========================================================================

/-- Claim C7: when a payload key collides with one of the four reserved
field names, the flattened record carries the payload's value, because the
reserved fields are inserted first and the payload is overlaid afterwards. -/
theorem claim7_payload_overrides_reserved (rid tid tname ttype : String)
    (fields : List (String × Json)) (k : String) (v : Json) (ca ua : Option String)
    (hk : k = "id" ∨ k = "tableId" ∨ k = "tableName" ∨ k = "tableType")
    (hnd : (fields.map (fun p => p.1)).Nodup) (hmem : (k, v) ∈ fields) :
    (flatten_record rid tid tname ttype (some (Json.obj fields)) ca ua).getField k = some v := by
  have hkca : k ≠ "createdAt" := by rcases hk with h | h | h | h <;> subst h <;> decide
  have hkua : k ≠ "updatedAt" := by rcases hk with h | h | h | h <;> subst h <;> decide
  cases ca <;> cases ua <;>
    simp only [flatten_record, Option.getD_some, Json.getField] <;>
    first
    | rw [lookupField_overlay_mem fields _ k v hnd hmem]
    | rw [lookupField_insertField_ne _ _ _ _ hkua,
        lookupField_overlay_mem fields _ k v hnd hmem]
    | rw [lookupField_insertField_ne _ _ _ _ hkca,
        lookupField_overlay_mem fields _ k v hnd hmem]
    | rw [lookupField_insertField_ne _ _ _ _ hkua,
        lookupField_insertField_ne _ _ _ _ hkca,
        lookupField_overlay_mem fields _ k v hnd hmem]

theorem claim7_witness :
    (flatten_record "r1" "t1" "T" "sale"
      (some (Json.obj [("tableType", Json.str "custom")])) none none).getField "tableType" =
      some (Json.str "custom") :=
  claim7_payload_overrides_reserved "r1" "t1" "T" "sale"
    [("tableType", Json.str "custom")] "tableType" (Json.str "custom") none none
    (by simp) (by simp) (by simp)

-- ===========================================================================
-- Claim C10: row timestamps are inserted after the payload overlay
-- ===========================================================================

/-- Claim C10: the row-metadata timestamps are inserted after the payload
overlay, so a present metadata `createdAt`/`updatedAt` always wins over a
payload key of the same name; the payload's value survives exactly when the
metadata timestamp is absent. -/
theorem claim10_timestamps_override_payload (rid tid tname ttype : String)
    (fields : List (String × Json)) (ca ua : Option String) :
    (∀ c, ca = some c →
      (flatten_record rid tid tname ttype (some (Json.obj fields)) ca ua).getField "createdAt" =
        some (Json.str c)) ∧
    (∀ u, ua = some u →
      (flatten_record rid tid tname ttype (some (Json.obj fields)) ca ua).getField "updatedAt" =
        some (Json.str u)) ∧
    (∀ v, ca = none → (fields.map (fun p => p.1)).Nodup → ("createdAt", v) ∈ fields →
      (flatten_record rid tid tname ttype (some (Json.obj fields)) ca ua).getField "createdAt" =
        some v) ∧
    (∀ v, ua = none → (fields.map (fun p => p.1)).Nodup → ("updatedAt", v) ∈ fields →
      (flatten_record rid tid tname ttype (some (Json.obj fields)) ca ua).getField "updatedAt" =
        some v) := by
  refine ⟨?_, ?_, ?_, ?_⟩
  · intro c hca
    subst hca
    cases ua <;>
      simp only [flatten_record, Option.getD_some, Json.getField] <;>
      first
      | rw [lookupField_insertField_self]
      | rw [lookupField_insertField_ne _ _ _ _ (by decide), lookupField_insertField_self]
  · intro u hua
    subst hua
    cases ca <;>
      simp only [flatten_record, Option.getD_some, Json.getField] <;>
      rw [lookupField_insertField_self]
  · intro v hca hnd hmem
    subst hca
    cases ua <;>
      simp only [flatten_record, Option.getD_some, Json.getField] <;>
      first
      | rw [lookupField_overlay_mem fields _ _ v hnd hmem]
      | rw [lookupField_insertField_ne _ _ _ _ (by decide),
          lookupField_overlay_mem fields _ _ v hnd hmem]
  · intro v hua hnd hmem
    subst hua
    cases ca <;>
      simp only [flatten_record, Option.getD_some, Json.getField] <;>
      first
      | rw [lookupField_overlay_mem fields _ _ v hnd hmem]
      | rw [lookupField_insertField_ne _ _ _ _ (by decide),
          lookupField_overlay_mem fields _ _ v hnd hmem]

theorem claim10_witness :
    (flatten_record "r" "t" "T" "sale" (some (Json.obj [("createdAt", Json.str "P")]))
      (some "M") none).getField "createdAt" = some (Json.str "M") ∧
    (flatten_record "r" "t" "T" "sale" (some (Json.obj [("createdAt", Json.str "P")]))
      none none).getField "createdAt" = some (Json.str "P") := by
  have h1 := (claim10_timestamps_override_payload "r" "t" "T" "sale"
    [("createdAt", Json.str "P")] (some "M") none).1 "M" rfl
  have h2 := (claim10_timestamps_override_payload "r" "t" "T" "sale"
    [("createdAt", Json.str "P")] none none).2.2.1 (Json.str "P") rfl (by simp) (by simp)
  exact ⟨h1, h2⟩

-- ===========================================================================
-- Claim C9: malformed payloads degrade to an empty object
-- ===========================================================================

/-- Claim C9: a row payload that is not valid JSON flattens to just the
reserved fields plus the row timestamps; a payload that parses to a
non-object behaves the same; and a listing request over any rows (malformed
payloads included) succeeds with one item per row — a bad row never aborts
the rest. -/
theorem claim9_malformed_payload_degrades (rid tid tname ttype : String)
    (ca ua : Option String) (db : Database) (token : TokenInfo) (table_id : String)
    (query : List (String × String)) (t : UserTable)
    (ht : findTable db table_id = some t)
    (ha : has_access t (get_allowed_table_ids token) = true)
    (hty : t.tableType = "sale" ∨ t.tableType = "rent") :
    (flatten_record rid tid tname ttype none ca ua =
      Json.obj ([("id", Json.str rid), ("tableId", Json.str tid),
        ("tableName", Json.str tname), ("tableType", Json.str ttype)] ++
        (match ca with | some c => [("createdAt", Json.str c)] | none => []) ++
        (match ua with | some u => [("updatedAt", Json.str u)] | none => []))) ∧
    (∀ j : Json, j.isObj = false →
      flatten_record rid tid tname ttype (some j) ca ua =
        flatten_record rid tid tname ttype none ca ua) ∧
    (∃ r, get_table_items db token table_id query = Resp.success r ∧
      r.items.length = (db.tableData.filter (fun row => row.tableId == table_id)).length) := by
  refine ⟨?_, ?_, ?_⟩
  · cases ca <;> cases ua <;> rfl
  · intro j hj
    cases j <;> first | rfl | (simp [Json.isObj] at hj)
  · have htyb : (t.tableType != "sale" ∧ t.tableType != "rent") = False := by
      rcases hty with h | h <;> simp [h]
    simp only [get_table_items, ht, ha, Bool.not_true, Bool.false_eq_true, if_false, htyb]
    refine ⟨_, rfl, ?_⟩
    cases hfm : ((lookupParam query "flat").map (fun s => s == "true")).getD false <;>
      simp [hfm]

def claim9_table : UserTable :=
  { id := "t1", name := "T", description := none, tableType := "sale", visibility := "public" }

def claim9_db : Database :=
  { userTables := [claim9_table],
    tableData :=
      [{ id := "r1", tableId := "t1", data := none, createdAt := none, updatedAt := none },
       { id := "r2", tableId := "t1", data := some (Json.obj [("a", Json.num 1)]),
         createdAt := none, updatedAt := none }],
    tableColumns := [] }

def claim9_token : TokenInfo := { id := "admin-token", tableAccess := none }

theorem claim9_witness :
    flatten_record "r1" "t1" "T" "sale" none none none =
      Json.obj [("id", Json.str "r1"), ("tableId", Json.str "t1"),
        ("tableName", Json.str "T"), ("tableType", Json.str "sale")] ∧
    Resp.isSuccess (get_table_items claim9_db claim9_token "t1" [("flat", "true")]) = true := by
  have h := claim9_malformed_payload_degrades "r1" "t1" "T" "sale" none none claim9_db
    claim9_token "t1" [("flat", "true")] claim9_table rfl rfl (Or.inl rfl)
  refine ⟨by simpa using h.1, ?_⟩
  rcases h.2.2 with ⟨r, hr, _⟩
  rw [hr]
  rfl

-- ===========================================================================
-- Claim C8: availability computation
-- ===========================================================================

/-- Claim C8: on an accessible item, `sale` tables report the payload's
numeric `qty` (default 0 when absent or non-numeric) as `availableQty`;
any other table type reports 0 when the payload's `used` flag is true and 1
otherwise; the requested quantity defaults to 1 when absent or unparsable;
and `available` holds exactly when `availableQty >= requestedQty`, compared
arithmetically for both table types. -/
theorem claim8_availability_formula (db : Database) (token : TokenInfo)
    (table_id item_id : String) (query : List (String × String))
    (t : UserTable) (row : TableRow)
    (ht : findTable db table_id = some t)
    (ha : has_access t (get_allowed_table_ids token) = true)
    (hr : findRow db table_id item_id = some row) :
    ∃ a, get_item_availability db token table_id item_id query = Resp.success a ∧
      (a.available = true ↔ (a.requestedQty : Int) ≤ a.availableQty) ∧
      (lookupParam query "quantity" = none → a.requestedQty = 1) ∧
      (∀ s, lookupParam query "quantity" = some s → parseU32 s = none → a.requestedQty = 1) ∧
      (∀ s n, lookupParam query "quantity" = some s → parseU32 s = some n →
        a.requestedQty = n) ∧
      (∀ q : Int, t.tableType = "sale" →
        ((row.data.getD (Json.obj [])).getField "qty").bind Json.asInt = some q →
        a.availableQty = q) ∧
      (t.tableType = "sale" →
        ((row.data.getD (Json.obj [])).getField "qty").bind Json.asInt = none →
        a.availableQty = 0) ∧
      (t.tableType ≠ "sale" →
        a.availableQty =
          (if (((row.data.getD (Json.obj [])).getField "used").bind Json.asBool).getD false
           then 0 else 1)) := by
  simp only [get_item_availability, ht, ha, Bool.not_true, Bool.false_eq_true, if_false, hr]
  refine ⟨_, rfl, ?_, ?_, ?_, ?_, ?_, ?_, ?_⟩
  · simp [ge_iff_le]
  · intro h
    simp [h]
  · intro s h1 h2
    simp [h1, h2]
  · intro s n h1 h2
    simp [h1, h2]
  · intro q hsale hq
    simp [hsale, hq]
  · intro hsale hq
    simp [hsale, hq]
  · intro hne
    have hb : (t.tableType == "sale") = false := by
      simp [hne]
    simp [hb]

def claim8_token : TokenInfo := { id := "frontend-token", tableAccess := none }

def claim8_sale_table : UserTable :=
  { id := "t1", name := "T", description := none, tableType := "sale", visibility := "public" }

def claim8_sale_row : TableRow :=
  { id := "r1", tableId := "t1", data := some (Json.obj [("qty", Json.num 5)]),
    createdAt := none, updatedAt := none }

def claim8_rent_table : UserTable :=
  { id := "t2", name := "R", description := none, tableType := "rent", visibility := "public" }

def claim8_rent_row : TableRow :=
  { id := "r2", tableId := "t2", data := some (Json.obj [("used", Json.bool true)]),
    createdAt := none, updatedAt := none }

def claim8_db : Database :=
  { userTables := [claim8_sale_table, claim8_rent_table],
    tableData := [claim8_sale_row, claim8_rent_row], tableColumns := [] }

theorem claim8_witness :
    get_item_availability claim8_db claim8_token "t1" "r1" [("quantity", "10")] =
      Resp.success { available := false, availableQty := 5, requestedQty := 10 } ∧
    get_item_availability claim8_db claim8_token "t2" "r2" [] =
      Resp.success { available := false, availableQty := 0, requestedQty := 1 } := by
  have h1 := claim8_availability_formula claim8_db claim8_token "t1" "r1"
    [("quantity", "10")] claim8_sale_table claim8_sale_row rfl rfl rfl
  have h2 := claim8_availability_formula claim8_db claim8_token "t2" "r2" []
    claim8_rent_table claim8_rent_row rfl rfl rfl
  exact ⟨rfl, rfl⟩

-- ===========================================================================
-- Claim C1: which endpoints enforce the sale/rent table-type restriction
-- ===========================================================================

/-- Claim C1 (amended): `get_table_items` refuses a table whose type is
neither sale nor rent with a 403 (after the access check, whose failure is
also a 403); the single-item and availability endpoints perform no such
check (see the counterexample theorem). -/
theorem claim1_items_endpoint_type_check (db : Database) (token : TokenInfo)
    (table_id : String) (query : List (String × String)) (t : UserTable)
    (ht : findTable db table_id = some t)
    (h1 : t.tableType ≠ "sale") (h2 : t.tableType ≠ "rent") :
    get_table_items db token table_id query =
      Resp.failure 403 "Table is not accessible with this token" ∨
    get_table_items db token table_id query =
      Resp.failure 403 "This endpoint only supports sale and rent tables" := by
  simp only [get_table_items, ht]
  cases hacc : has_access t (get_allowed_table_ids token)
  · exact Or.inl (by simp)
  · refine Or.inr ?_
    simp [h1, h2]

def claim1_table : UserTable :=
  { id := "t1", name := "T", description := none, tableType := "other",
    visibility := "public" }

def claim1_row : TableRow :=
  { id := "r1", tableId := "t1", data := some (Json.obj [("a", Json.num 1)]),
    createdAt := none, updatedAt := none }

def claim1_db : Database :=
  { userTables := [claim1_table], tableData := [claim1_row], tableColumns := [] }

def claim1_token : TokenInfo := { id := "admin-token", tableAccess := none }

/-- Claim C1 counterexample: on a table of type "other" the single-item and
availability endpoints return the item's data with a success status instead
of refusing, while the items listing endpoint refuses the same table. -/
theorem claim1_counterexample :
    (findTable claim1_db "t1").map (fun t => t.tableType) = some "other" ∧
    Resp.isSuccess (get_table_item claim1_db claim1_token "t1" "r1") = true ∧
    Resp.isSuccess (get_item_availability claim1_db claim1_token "t1" "r1" []) = true ∧
    Resp.isSuccess (get_table_items claim1_db claim1_token "t1" []) = false := by
  exact ⟨rfl, rfl, rfl, rfl⟩

theorem claim1_witness :
    get_table_items claim1_db claim1_token "t1" [] =
      Resp.failure 403 "This endpoint only supports sale and rent tables" := by
  have h := claim1_items_endpoint_type_check claim1_db claim1_token "t1" [] claim1_table rfl
    (by decide) (by decide)
  exact rfl

-- ===========================================================================
-- Claim C2: Restricted(∅) listings
-- ===========================================================================

/-- Claim C2 (amended): for a token resolving to Restricted(∅), every listing
operation whose required parameters are present returns zero records with a
success status and issues no row-store query at all; searchTablesByColumns
returns a 400 error when its columns parameter is missing or empty,
independently of the token (see the counterexample theorem). -/
theorem claim2_restricted_empty_listings (db : Database) (kvp : Option PublicTablesCache)
    (kvq : QueryKv) (now : Nat) (token : TokenInfo) (query : List (String × String))
    (column_name : String)
    (h : get_allowed_table_ids token = some []) :
    ((get_tables db kvp now token).resp = Resp.success { tables := [], count := 0 } ∧
      (get_tables db kvp now token).dbQueries = 0 ∧
      (get_tables db kvp now token).cacheSet = none) ∧
    (parsedSearchColumns query ≠ [] →
      (search_tables db token query).resp =
        Resp.success { tables := [], count := 0, searchedColumns := parsedSearchColumns query } ∧
      (search_tables db token query).dbQueries = 0) ∧
    ((get_records db kvq now token query).resp = some (Resp.success
        { records := [], count := 0, total := 0,
          pagination := { total := 0, page := 1, limit := effLimit query, hasMore := false },
          filters := condsFilters (extract_where_conditions query) }) ∧
      (get_records db kvq now token query).dbQueries = 0 ∧
      (get_records db kvq now token query).cacheGets = [] ∧
      (get_records db kvq now token query).cacheSet = none) ∧
    ((get_values db token column_name query).resp = Resp.success
        { column := column_name, values := [], count := 0,
          filters := condsFilters (extract_where_conditions query), tablesSampled := [] } ∧
      (get_values db token column_name query).dbQueries = 0) := by
  refine ⟨?_, ?_, ?_, ?_⟩
  · simp [get_tables, h]
  · intro hne
    have hb : (parsedSearchColumns query).isEmpty = false := by
      cases hq : parsedSearchColumns query with
      | nil => exact absurd hq hne
      | cons a l => rfl
    simp [search_tables, hb, h, resolveQueries]
  · simp [get_records, h, resolveTables, resolveQueries]
  · simp [get_values, h, resolveTables, resolveQueries]

def claim2_token : TokenInfo := { id := "tok", tableAccess := none }

def claim2_table : UserTable :=
  { id := "t1", name := "T", description := none, tableType := "sale", visibility := "public" }

def claim2_db : Database :=
  { userTables := [claim2_table], tableData := [], tableColumns := [] }

/-- Claim C2 counterexample: for a token resolving to Restricted(∅), a
searchTablesByColumns request without the columns parameter returns a 400
error, so "never an error" does not hold as literally stated. -/
theorem claim2_counterexample :
    get_allowed_table_ids claim2_token = some [] ∧
    (search_tables claim2_db claim2_token []).resp =
      Resp.failure 400 "columns parameter is required" :=
  ⟨rfl, rfl⟩

theorem claim2_witness :
    (get_tables claim2_db none 0 claim2_token).resp = Resp.success { tables := [], count := 0 } ∧
    (search_tables claim2_db claim2_token [("columns", "a")]).resp =
      Resp.success { tables := [], count := 0, searchedColumns := ["a"] } ∧
    (get_records claim2_db [] 0 claim2_token [("columns", "a")]).dbQueries = 0 ∧
    (get_values claim2_db claim2_token "a" [("columns", "a")]).dbQueries = 0 := by
  have h := claim2_restricted_empty_listings claim2_db none [] 0 claim2_token
    [("columns", "a")] "a" rfl
  have hsearch := h.2.1 (by decide)
  exact ⟨rfl, rfl, rfl, rfl⟩

-- ===========================================================================
-- Claim C3: query-result caching policy
-- ===========================================================================

/-- When the caching precondition (unrestricted token and no columns
parameter) fails, `get_records` performs no cache operation at all. -/
theorem get_records_no_cache_ops (db : Database) (kv : QueryKv) (now : Nat)
    (token : TokenInfo) (query : List (String × String))
    (hcan : ((get_allowed_table_ids token).isNone &&
      (lookupParam query "columns").isNone) = false) :
    (get_records db kv now token query).cacheGets = [] ∧
    (get_records db kv now token query).cacheSet = none := by
  simp only [get_records, hcan, Bool.false_eq_true, if_false]
  split
  · exact ⟨rfl, rfl⟩
  · exact ⟨rfl, rfl⟩

/-- When the caching precondition holds, the only possible cache write is the
pre-projection flattened page with its total. -/
theorem get_records_cache_set_shape (db : Database) (kv : QueryKv) (now : Nat)
    (token : TokenInfo) (query : List (String × String))
    (hallow : get_allowed_table_ids token = none)
    (hcols : lookupParam query "columns" = none) :
    (get_records db kv now token query).cacheSet = none ∨
    (get_records db kv now token query).cacheSet = some
      (query_cache_key ((resolveTables db none).map (fun t => t.id))
        (extract_where_conditions query) (effLimit query) (effOffset query),
       { records :=
           (((matchedRows db ((resolveTables db none).map (fun t => t.id))
               (extract_where_conditions query)).drop (effOffset query)).take
                 (effLimit query)).map
             (fun row => flattenRow (resolveTables db none) row),
         total := ((matchedRows db ((resolveTables db none).map (fun t => t.id))
           (extract_where_conditions query)).length : Int),
         cachedAt := now }) := by
  simp only [get_records, hallow, hcols, Option.isNone_none, Bool.and_self, if_true]
  split
  · exact Or.inl rfl
  · split
    · exact Or.inl rfl
    · exact Or.inr rfl

/-- Claim C3: the query-result cache is consulted or populated only when the
resolved policy is unrestricted and no column projection was requested — a
restricted token or a columns parameter gives a request that neither reads
nor writes the cache — and a populated entry always holds the
pre-projection flattened page together with its total. -/
theorem claim3_query_cache_policy (db : Database) (kv : QueryKv) (now : Nat)
    (token : TokenInfo) (query : List (String × String)) :
    ((get_allowed_table_ids token ≠ none ∨ lookupParam query "columns" ≠ none) →
      (get_records db kv now token query).cacheGets = [] ∧
      (get_records db kv now token query).cacheSet = none) ∧
    (∀ k e, (get_records db kv now token query).cacheSet = some (k, e) →
      get_allowed_table_ids token = none ∧ lookupParam query "columns" = none ∧
      e.records =
        (((matchedRows db ((resolveTables db none).map (fun t => t.id))
            (extract_where_conditions query)).drop (effOffset query)).take
              (effLimit query)).map
          (fun row => flattenRow (resolveTables db none) row) ∧
      e.total = ((matchedRows db ((resolveTables db none).map (fun t => t.id))
        (extract_where_conditions query)).length : Int)) := by
  constructor
  · intro hcase
    apply get_records_no_cache_ops
    rcases hcase with hc | hc
    · cases hget : get_allowed_table_ids token with
      | none => exact absurd hget hc
      | some ids => simp [hget]
    · cases hget : lookupParam query "columns" with
      | none => exact absurd hget hc
      | some c => simp [hget]
  · intro k e hset
    cases hcan : ((get_allowed_table_ids token).isNone &&
        (lookupParam query "columns").isNone) with
    | false =>
      rw [(get_records_no_cache_ops db kv now token query hcan).2] at hset
      cases hset
    | true =>
      rw [Bool.and_eq_true, Option.isNone_iff_eq_none, Option.isNone_iff_eq_none] at hcan
      obtain ⟨hallow, hcols⟩ := hcan
      rcases get_records_cache_set_shape db kv now token query hallow hcols with hn | hs
      · rw [hn] at hset
        cases hset
      · rw [hs] at hset
        have he := congrArg Prod.snd (Option.some.inj hset)
        dsimp only at he
        refine ⟨hallow, hcols, ?_, ?_⟩
        · rw [← he]
        · rw [← he]

theorem claim3_witness :
    (get_records claim2_db [] 0 claim2_token [("columns", "a")]).cacheGets = [] ∧
    (get_records claim2_db [] 0 claim2_token [("columns", "a")]).cacheSet = none := by
  have h := claim3_query_cache_policy claim2_db [] 0 claim2_token [("columns", "a")]
  exact h.1 (Or.inl (by decide))

-- ===========================================================================
-- Claim C6: limit clamping and pagination formulas
-- ===========================================================================

/-- The wrapping comparison in `mkPaginationLive` agrees with the exact
arithmetic comparison as long as nothing overflows 32 bits. -/
theorem mkPaginationLive_hasMore_iff (limit offset : Nat) (total : Int)
    (h1 : offset + limit < 4294967296) (h2 : 0 ≤ total) (h3 : total < 4294967296) :
    ((mkPaginationLive limit offset total).hasMore = true ↔
      ((offset : Int) + limit) < total) := by
  simp only [mkPaginationLive, u32OfInt, Nat.mod_eq_of_lt h1,
    Int.emod_emod_of_dvd, decide_eq_true_eq]
  rw [Int.emod_eq_of_lt h2 h3]
  omega

/-- Claim C6 (amended): the effective limit is `min(parsed-or-100, 1000)`
(so never above 1000, and 100 when the parameter is absent or unparsable);
whenever the effective limit is positive the request succeeds, and on every
success the response's `hasMore` is the 32-bit wrapping comparison
`(offset + limit) < total-as-u32` — which equals `(offset + limit) < total`
whenever nothing overflows 32 bits — while `page = offset / limit + 1`
(wrapping) only holds when the accessible-table set is non-empty: the
empty-set early return hardcodes `page = 1` and `total = 0`.  (With an
effective limit of 0 the division panics; see `RecordsOutcome.resp`.) -/
theorem claim6_pagination_formulas (db : Database) (kv : QueryKv) (now : Nat)
    (token : TokenInfo) (query : List (String × String)) :
    effLimit query ≤ 1000 ∧
    (((lookupParam query "limit").bind parseU32) = none → effLimit query = 100) ∧
    (∀ n, ((lookupParam query "limit").bind parseU32) = some n →
      effLimit query = min n 1000) ∧
    (0 < effLimit query →
      ∃ r, (get_records db kv now token query).resp = some (Resp.success r) ∧
        r.pagination.limit = effLimit query ∧
        r.pagination.hasMore =
          decide (((effOffset query + effLimit query) % 4294967296) <
            u32OfInt r.pagination.total) ∧
        ((resolveTables db (get_allowed_table_ids token)).isEmpty = false →
          r.pagination.page = (effOffset query / effLimit query + 1) % 4294967296) ∧
        ((resolveTables db (get_allowed_table_ids token)).isEmpty = true →
          r.pagination.page = 1 ∧ r.pagination.total = 0) ∧
        (effOffset query + effLimit query < 4294967296 → 0 ≤ r.pagination.total →
          r.pagination.total < 4294967296 →
          (r.pagination.hasMore = true ↔
            ((effOffset query : Int) + effLimit query) < r.pagination.total))) := by
  refine ⟨Nat.min_le_right _ _, ?_, ?_, ?_⟩
  · intro h
    simp [effLimit, h]
  · intro n h
    simp [effLimit, h]
  · intro hl
    have hz : (effLimit query == 0) = false := by
      simp only [beq_eq_false_iff_ne]
      omega
    cases htab : (resolveTables db (get_allowed_table_ids token)).isEmpty with
    | true =>
      simp only [get_records, htab, if_true]
      refine ⟨_, rfl, rfl, ?_, ?_, ?_, ?_⟩
      · simp [u32OfInt]
      · intro h
        cases h
      · intro h
        exact ⟨rfl, rfl⟩
      · intro hov hpos hlt
        dsimp only
        constructor
        · intro hfalse
          cases hfalse
        · intro habs
          omega
    | false =>
      simp only [get_records, htab, Bool.false_eq_true, if_false]
      split
      · simp only [hz, Bool.false_eq_true, if_false]
        refine ⟨_, rfl, rfl, rfl, ?_, ?_, ?_⟩
        · intro h
          rfl
        · intro h
          cases h
        · intro hov hpos hlt
          exact mkPaginationLive_hasMore_iff (effLimit query) (effOffset query) _ hov hpos hlt
      · simp only [hz, Bool.false_eq_true, if_false]
        refine ⟨_, rfl, rfl, rfl, ?_, ?_, ?_⟩
        · intro h
          rfl
        · intro h
          cases h
        · intro hov hpos hlt
          exact mkPaginationLive_hasMore_iff (effLimit query) (effOffset query) _ hov hpos hlt

def respPageOf (o : RecordsOutcome) : Option Nat :=
  match o.resp with
  | some (Resp.success r) => some r.pagination.page
  | _ => none

/-- Claim C6 counterexample: a request whose accessible-table set resolves
empty (here a Restricted(∅) token) with offset=200 and the default limit 100
gets a response whose page is the hardcoded 1, not floor(200/100)+1 = 3. -/
theorem claim6_counterexample :
    respPageOf (get_records claim2_db [] 0 claim2_token [("offset", "200")]) = some 1 ∧
    effOffset [("offset", "200")] / effLimit [("offset", "200")] + 1 = 3 :=
  ⟨rfl, by decide⟩

def claim6_token : TokenInfo := { id := "admin-token", tableAccess := none }

theorem claim6_witness :
    respPageOf (get_records claim2_db [] 0 claim6_token [("offset", "200")]) = some 3 := by
  have h := claim6_pagination_formulas claim2_db [] 0 claim6_token [("offset", "200")]
  rcases h.2.2.2 (by decide) with ⟨r, hr, hlim, hhm, hpage, hpageempty, hiff⟩
  simp only [respPageOf, hr]
  rw [hpage (by decide)]
  decide
